import Mathlib

/-!
Shallow embedding of the two sample Databricks apps:
  * `sample-get-uc-service-creds/app.py`: workspace-client construction,
    temporary-credential extraction, EC2 instance listing;
  * `sample-large-file/startup.py` and `app.py`: volume download with a
    byte-extraction fallback chain, and a local-file JSON preview.
External calls (the SDK, boto3, the filesystem) are modelled by explicit
outcome values: an exception raised inside a call becomes an `exn`
constructor, a Python attribute that may be absent becomes an `Option`
field, and the filesystem becomes an explicit state.
-/

namespace UcCreds

/-- The `aws_temp_credentials` object of the SDK response: three string
fields (`app.py` lines 54-56 read exactly these). -/
structure AwsTempCreds where
  access_key_id : String
  secret_access_key : String
  session_token : String
deriving DecidableEq

/-- The shape of the `aws_temp_credentials` attribute on the response:
absent (so `hasattr` at `app.py` line 49 is false), present holding Python
`None` (the SDK declares the field Optional, so `hasattr` is true yet the
field reads at lines 54-56 raise `AttributeError`), or present holding the
credentials object. -/
inductive AwsTempCredsAttr where
  | absent
  | pyNone
  | val (c : AwsTempCreds)
deriving DecidableEq

/-- The `TemporaryCredentials` response object. -/
structure TempCredsResponse where
  aws_temp_credentials : AwsTempCredsAttr
deriving DecidableEq

/-- Modelled `str(e)` of the `AttributeError` CPython raises when
`aws_creds` is `None` and `app.py` line 54 reads `.access_key_id` (the real
message additionally wraps `NoneType` and the attribute name in quotes). -/
def attributeErrorOnNone : String :=
  "NoneType object has no attribute access_key_id"

/-- The dict built at `app.py` lines 53-57 and handed to boto3. -/
structure AwsCredentialsDict where
  access_key_id : String
  secret_access_key : String
  session_token : String
deriving DecidableEq

/-- Outcome of `wc.credentials.generate_temporary_service_credential`:
either it returns a response object or it raises, with `str(e)` as message. -/
inductive CredCallOutcome where
  | ok (temp_credentials : TempCredsResponse)
  | exn (msg : String)
deriving DecidableEq

/-- `get_aws_credentials` (`app.py` lines 34-70): when the response carries
the `aws_temp_credentials` attribute holding a credentials object, it builds
the three-field dict and pairs it with no error; when the attribute is
absent (`hasattr` false at line 49) it returns `None` and the fixed error
string of line 62; when the attribute is present holding `None`, `hasattr`
is true and the field read at line 54 raises `AttributeError`, which the
`except` at line 66 turns into `None` plus the formatted error string; an
exception from the SDK call itself lands in the same `except`. The pair
mirrors the Python `(aws_credentials, error)` return. -/
def get_aws_credentials (outcome : CredCallOutcome) :
    Option AwsCredentialsDict × Option String :=
  match outcome with
  | .ok temp_credentials =>
    match temp_credentials.aws_temp_credentials with
    | .val aws_creds =>
        (some ⟨aws_creds.access_key_id, aws_creds.secret_access_key,
               aws_creds.session_token⟩, none)
    | .pyNone =>
        (none, some ("Error getting AWS credentials: " ++ attributeErrorOnNone))
    | .absent => (none, some "No AWS credentials found in response")
  | .exn e => (none, some ("Error getting AWS credentials: " ++ e))

/-- One `{"Key": ..., "Value": ...}` entry of an instance's `Tags` list. -/
structure Ec2Tag where
  key : String
  value : String
deriving DecidableEq

/-- One instance record of a reservation. `tags = none` models an instance
dict with no `Tags` key at all (`instance.get("Tags", [])`, line 92). -/
structure Ec2Instance where
  instanceId : String
  tags : Option (List Ec2Tag)
deriving DecidableEq

/-- `instance.get("Tags", [])` (`app.py` line 92). -/
def getTags (i : Ec2Instance) : List Ec2Tag := i.tags.getD []

/-- One reservation of the `describe_instances` response. -/
structure Reservation where
  instances : List Ec2Instance
deriving DecidableEq

/-- The record appended per instance (`app.py` lines 97-100). -/
structure InstanceInfo where
  name : String
  instanceId : String
deriving DecidableEq

/-- The tag loop of `app.py` lines 90-95: `instance_name` starts as `"N/A"`
and the loop breaks at the first tag whose `Key` is `"Name"`, taking its
`Value`. -/
def findNameTag : List Ec2Tag → String
  | [] => "N/A"
  | t :: ts => if t.key = "Name" then t.value else findNameTag ts

/-- The nested reservation/instance loops of `app.py` lines 87-101. -/
def get_ec2_instances_records (reservations : List Reservation) :
    List InstanceInfo :=
  reservations.flatMap fun r =>
    r.instances.map fun i => ⟨findNameTag (getTags i), i.instanceId⟩

/-- Outcome of the boto3 session/client/`describe_instances` sequence:
either the response's reservation list, or an exception with `str(e)`. -/
inductive Ec2CallOutcome where
  | ok (reservations : List Reservation)
  | exn (msg : String)
deriving DecidableEq

/-- `get_ec2_instances` (`app.py` lines 73-109): the `(instances, error)`
pair — the extracted records with no error on success, the empty list and a
formatted error string when the AWS calls raise. -/
def get_ec2_instances (outcome : Ec2CallOutcome) :
    List InstanceInfo × Option String :=
  match outcome with
  | .ok reservations => (get_ec2_instances_records reservations, none)
  | .exn e => ([], some ("Error getting EC2 instances: " ++ e))

/-- The keyword arguments `boto3.Session` receives at `app.py` lines 76-80. -/
structure Boto3SessionArgs where
  aws_access_key_id : String
  aws_secret_access_key : String
  aws_session_token : String
deriving DecidableEq

/-- `app.py` lines 76-80: each session argument is a lookup in the
`aws_credentials` dict. -/
def boto3SessionArgs (aws_credentials : AwsCredentialsDict) : Boto3SessionArgs :=
  ⟨aws_credentials.access_key_id, aws_credentials.secret_access_key,
   aws_credentials.session_token⟩

/-- How the `WorkspaceClient` constructor is invoked (`app.py` lines 26-32):
with explicit host/token keyword arguments, or with no arguments. -/
inductive WorkspaceClientInit where
  | withHostToken (host token : Option String)
  | ambient
deriving DecidableEq

/-- `get_workspace_client` (`app.py` lines 26-32) over the three environment
variables read at lines 20-22 (each `none` when unset). -/
def get_workspace_client (environment databricks_host databricks_token :
    Option String) : WorkspaceClientInit :=
  if environment = some "LOCAL" then
    .withHostToken databricks_host databricks_token
  else
    .ambient

end UcCreds

namespace LargeFile

/-- The value of the `contents` attribute when present: Python `None`, or a
`BinaryIO`-like object whose `read()` (when it has one) yields the given
bytes. -/
inductive ContentsVal where
  | pyNone
  | binObj (readFn : Option (List UInt8))
deriving DecidableEq

/-- A download-response object, as `startup.py` lines 52-79 probe it: each
field is `none` when the attribute is absent. `read` holds the bytes
`download_response.read()` would return; `toBytes` holds the result of the
`bytes(download_response)` conversion, `none` when that conversion raises. -/
structure DownloadResponse where
  contents : Option ContentsVal
  content : Option (List UInt8)
  body : Option (List UInt8)
  read : Option (List UInt8)
  toBytes : Option (List UInt8)
deriving DecidableEq

/-- The byte-extraction chain of `startup.py` lines 52-79: the `contents`
branch fires only when the attribute is present AND its value is not `None`
(line 52), and inside it a missing `read()` returns failure (lines 58-63);
otherwise the chain tries `content`, `body`, `read`, then `bytes(...)`.
`none` means the function returns `False` before any local write. -/
def extract_download_content (r : DownloadResponse) : Option (List UInt8) :=
  match r.contents with
  | some (ContentsVal.binObj readFn) =>
    match readFn with
    | some c => some c
    | none => none
  | _ =>
    match r.content with
    | some c => some c
    | none =>
      match r.body with
      | some c => some c
      | none =>
        match r.read with
        | some c => some c
        | none => r.toBytes

/-- Outcome of the SDK download attempt in `download_file_from_volume`:
the response object, an `ImportError` (after which the `dbutils.fs.cp`
fallback either succeeds or raises), or any other exception. -/
inductive DownloadCallOutcome where
  | ok (download_response : DownloadResponse)
  | importError (dbutilsCp : Except String Unit)
  | exn (msg : String)

/-- `download_file_from_volume` (`startup.py` lines 33-107) as the pair
(returned Bool, bytes written by the local `open(..., 'wb')` write at lines
84-85, `none` when that write never runs). The `dbutils` fallback copies the
file without that write; every exception path returns `False`. -/
def download_file_from_volume (o : DownloadCallOutcome) :
    Bool × Option (List UInt8) :=
  match o with
  | .ok r =>
    match extract_download_content r with
    | some c => (true, some c)
    | none => (false, none)
  | .importError (.ok _) => (true, none)
  | .importError (.error _) => (false, none)
  | .exn _ => (false, none)

/-- The local filesystem as the viewer sees it: the contents of `big.json`
when it exists, `none` when it does not. -/
structure LocalFilesystem where
  bigJson : Option (List Char)
deriving DecidableEq

/-- `os.path.exists(local_json_file)` (`app.py` line 15). -/
def path_exists_bigJson (fs : LocalFilesystem) : Bool := fs.bigJson.isSome

/-- What the module-level branch of `app.py` lines 15-62 does with the file:
opens it and reads a 10240-character sample, or shows the not-found error
without any read. -/
inductive ViewerFileBranch where
  | readsFile (sample : List Char)
  | notFound
deriving DecidableEq

/-- The module-level check-then-read of `app.py` lines 15-27 and 60-62:
when `os.path.exists` reports the file, open it and `f.read(10240)`;
otherwise display the not-found error and never open the file. -/
def viewer_file_branch (fs : LocalFilesystem) : ViewerFileBranch :=
  if path_exists_bigJson fs then
    .readsFile ((fs.bigJson.getD []).take 10240)
  else
    .notFound

/-- The preview of `app.py` lines 25-55: the sample is the first 10240
characters; `json.loads` (modelled by the deterministic `parseJson`
argument) either yields a parsed value to display, or the raw sample is
shown, cut to 1000 characters plus `"..."` when longer. The triple is
(sample read, parse result displayed, raw fallback displayed). -/
def render_preview {α : Type} (parseJson : List Char → Option α)
    (fileContent : List Char) : List Char × Option α × Option (List Char) :=
  let sample_content := fileContent.take 10240
  match parseJson sample_content with
  | some v => (sample_content, some v, none)
  | none =>
    (sample_content, none,
     some (if sample_content.length > 1000
           then sample_content.take 1000 ++ ("...".toList)
           else sample_content))

end LargeFile

open UcCreds LargeFile

/-! ### Helper lemmas about the tag loop -/

theorem findNameTag_of_no_name (l : List Ec2Tag)
    (h : ∀ u ∈ l, u.key ≠ "Name") : findNameTag l = "N/A" := by
  induction l with
  | nil => rfl
  | cons t ts ih =>
    have ht : ¬ t.key = "Name" := h t (List.mem_cons_self t ts)
    simp only [findNameTag, if_neg ht]
    exact ih fun u hu => h u (List.mem_cons_of_mem t hu)

theorem findNameTag_of_mem_name (l : List Ec2Tag)
    (h : ∃ t ∈ l, t.key = "Name") :
    ∃ t ∈ l, t.key = "Name" ∧ findNameTag l = t.value := by
  induction l with
  | nil => simp at h
  | cons u ts ih =>
    by_cases hu : u.key = "Name"
    · exact ⟨u, List.mem_cons_self u ts, hu, by simp only [findNameTag, if_pos hu]⟩
    · obtain ⟨t, ht, hkey⟩ := h
      rcases List.mem_cons.mp ht with rfl | hmem
      · exact absurd hkey hu
      · obtain ⟨t', ht', hk', hv'⟩ := ih ⟨t, hmem, hkey⟩
        exact ⟨t', List.mem_cons_of_mem u ht', hk',
               by simp only [findNameTag, if_neg hu]; exact hv'⟩

theorem findNameTag_append_no_name (l₁ l₂ : List Ec2Tag)
    (h : ∀ u ∈ l₁, u.key ≠ "Name") :
    findNameTag (l₁ ++ l₂) = findNameTag l₂ := by
  induction l₁ with
  | nil => rfl
  | cons u ts ih =>
    have hu : ¬ u.key = "Name" := h u (List.mem_cons_self u ts)
    simp only [List.cons_append, findNameTag, if_neg hu]
    exact ih fun v hv => h v (List.mem_cons_of_mem u hv)

/-! ### Claims -/

/-- C1: on every describe-instances response, `get_ec2_instances` returns
exactly one record per instance across all reservations (in order), each
record's `Instance ID` being the instance's `InstanceId` and its `Name`
being the value of a `"Name"`-keyed tag when one exists in the instance's
tag list, and `"N/A"` when none exists — including when the instance has no
`Tags` key at all. -/
theorem C1_one_record_per_instance (rs : List Reservation) :
    get_ec2_instances (.ok rs)
      = ((rs.flatMap fun r => r.instances).map
          (fun i => ⟨findNameTag (getTags i), i.instanceId⟩), none)
    ∧ (∀ ts : List Ec2Tag,
        ((∃ t ∈ ts, t.key = "Name") →
          ∃ t ∈ ts, t.key = "Name" ∧ findNameTag ts = t.value)
        ∧ ((∀ t ∈ ts, t.key ≠ "Name") → findNameTag ts = "N/A"))
    ∧ (∀ i : Ec2Instance, i.tags = none → findNameTag (getTags i) = "N/A") := by
  refine ⟨?_, fun ts => ⟨findNameTag_of_mem_name ts, findNameTag_of_no_name ts⟩,
          fun i hi => ?_⟩
  · simp only [get_ec2_instances, get_ec2_instances_records, List.map_flatMap]
  · simp [getTags, hi, findNameTag]

/-- C2 counterexample: the claim says the populated dictionary comes back
exactly when the response HAS the `aws_temp_credentials` attribute. On a
response whose attribute is present holding Python `None` — the SDK field is
Optional, so `hasattr` at `app.py` line 49 is true — the field read at line
54 raises `AttributeError` and the `except` at line 66 returns `(None,
error)`: the attribute is present, yet no populated dictionary is
returned. -/
theorem C2_present_none_counterexample :
    TempCredsResponse.aws_temp_credentials ⟨AwsTempCredsAttr.pyNone⟩
        ≠ AwsTempCredsAttr.absent
    ∧ (get_aws_credentials (.ok ⟨AwsTempCredsAttr.pyNone⟩)).1 = none
    ∧ (get_aws_credentials (.ok ⟨AwsTempCredsAttr.pyNone⟩)).2
        = some ("Error getting AWS credentials: " ++ attributeErrorOnNone) :=
  ⟨by decide, rfl, rfl⟩

/-- C2 (amended): for every response object returned by the credential
call, `get_aws_credentials` returns the populated three-field dictionary
paired with no error exactly when the `aws_temp_credentials` attribute is
present holding a credentials object; when the attribute is absent it
returns `none` paired with the explicit fixed error string; when the
attribute is present holding `None`, the field access raises and the
catch-all returns `none` paired with the formatted error string. -/
theorem C2_credential_extraction (resp : TempCredsResponse) :
    (∀ c, resp.aws_temp_credentials = .val c →
        get_aws_credentials (.ok resp)
          = (some ⟨c.access_key_id, c.secret_access_key, c.session_token⟩,
             none))
    ∧ (resp.aws_temp_credentials = .absent →
        get_aws_credentials (.ok resp)
          = (none, some "No AWS credentials found in response"))
    ∧ (resp.aws_temp_credentials = .pyNone →
        get_aws_credentials (.ok resp)
          = (none,
             some ("Error getting AWS credentials: "
                   ++ attributeErrorOnNone))) := by
  obtain ⟨o⟩ := resp
  refine ⟨?_, ?_, ?_⟩
  · rintro c rfl
    rfl
  · rintro rfl
    rfl
  · rintro rfl
    rfl

/-- C4: every exception raised inside one of the wrapped external calls is
caught by the enclosing function, which returns its sentinel instead of
propagating: `get_aws_credentials` returns `(none, error string)`,
`get_ec2_instances` returns `([], error string)`, and
`download_file_from_volume` returns `False` (both for a general exception
and for a failing `dbutils` fallback) without writing the local file. -/
theorem C4_exceptions_become_sentinels (msg : String) :
    get_aws_credentials (.exn msg)
      = (none, some ("Error getting AWS credentials: " ++ msg))
    ∧ get_ec2_instances (.exn msg)
      = ([], some ("Error getting EC2 instances: " ++ msg))
    ∧ download_file_from_volume (.exn msg) = (false, none)
    ∧ download_file_from_volume (.importError (.error msg)) = (false, none) :=
  ⟨rfl, rfl, rfl, rfl⟩

/-- C6: `get_workspace_client` passes the explicit host and token from the
environment exactly when `ENVIRONMENT` equals `"LOCAL"`, and constructs the
client with no arguments in every other case, including when `ENVIRONMENT`
is unset. -/
theorem C6_workspace_client_auth_choice
    (environment databricks_host databricks_token : Option String) :
    (environment = some "LOCAL" →
      get_workspace_client environment databricks_host databricks_token
        = .withHostToken databricks_host databricks_token)
    ∧ (environment ≠ some "LOCAL" →
      get_workspace_client environment databricks_host databricks_token
        = .ambient)
    ∧ get_workspace_client none databricks_host databricks_token
        = .ambient := by
  refine ⟨fun h => ?_, fun h => ?_, rfl⟩
  · simp [get_workspace_client, h]
  · simp [get_workspace_client, h]

/-- C9: for every outcome of the credential call — any response object or
any exception — the pair `get_aws_credentials` returns has exactly one
`none` component: either a populated dictionary with no error, or no
dictionary with a non-empty error string. -/
theorem C9_exactly_one_none (o : CredCallOutcome) :
    (∃ d, get_aws_credentials o = (some d, none))
    ∨ (∃ e, get_aws_credentials o = (none, some e) ∧ e ≠ "") := by
  match o with
  | .ok ⟨.val c⟩ => exact Or.inl ⟨_, rfl⟩
  | .ok ⟨.absent⟩ => exact Or.inr ⟨_, rfl, by decide⟩
  | .ok ⟨.pyNone⟩ => exact Or.inr ⟨_, rfl, by decide⟩
  | .exn e =>
    refine Or.inr ⟨_, rfl, fun h => ?_⟩
    have h2 := congrArg String.length h
    rw [String.length_append] at h2
    simp at h2
    exact absurd h2.1 (by decide)

/-- C3 counterexample: the claim says the content source is selected by the
first PRESENT attribute in the order `contents`, `content`, `body`, `read`,
`bytes(...)`. Here the `contents` attribute is present (holding Python
`None`), so under the claim the later attributes could not influence the
result — yet the bytes written come from the `content` attribute, and
changing `content` alone changes the result: line 52 of `startup.py` skips a
present `contents` whose value is `None`. -/
theorem C3_first_present_counterexample :
    (DownloadResponse.contents
        ⟨some ContentsVal.pyNone, some [49], none, none, none⟩).isSome = true
    ∧ download_file_from_volume
        (.ok ⟨some ContentsVal.pyNone, some [49], none, none, none⟩)
        = (true, some [49])
    ∧ download_file_from_volume
        (.ok ⟨some ContentsVal.pyNone, some [50], none, none, none⟩)
        = (true, some [50]) :=
  ⟨rfl, rfl, rfl⟩

/-- C3 (amended): the byte-extraction selects `contents` only when that
attribute is present with a non-`None` value, reading via that value's
`read()` and returning `False` without writing when `read()` is absent;
otherwise it selects the first present attribute among `content`, `body`,
`read`, then the `bytes()` conversion, and it fails cleanly — returns
`False` without writing the local file — when none of these match. -/
theorem C3_extraction_chain (r : DownloadResponse) :
    (∀ readFn c, r.contents = some (ContentsVal.binObj readFn) →
        readFn = some c → download_file_from_volume (.ok r) = (true, some c))
    ∧ (∀ readFn, r.contents = some (ContentsVal.binObj readFn) →
        readFn = none → download_file_from_volume (.ok r) = (false, none))
    ∧ ((r.contents = none ∨ r.contents = some ContentsVal.pyNone) →
        (∀ c, r.content = some c →
            download_file_from_volume (.ok r) = (true, some c))
        ∧ (r.content = none →
            (∀ c, r.body = some c →
                download_file_from_volume (.ok r) = (true, some c))
            ∧ (r.body = none →
                (∀ c, r.read = some c →
                    download_file_from_volume (.ok r) = (true, some c))
                ∧ (r.read = none →
                    (∀ c, r.toBytes = some c →
                        download_file_from_volume (.ok r) = (true, some c))
                    ∧ (r.toBytes = none →
                        download_file_from_volume (.ok r)
                          = (false, none)))))) := by
  obtain ⟨cs, co, bo, re, tb⟩ := r
  refine ⟨?_, ?_, ?_⟩
  · rintro readFn c rfl rfl
    rfl
  · rintro readFn rfl rfl
    rfl
  · rintro (rfl | rfl) <;>
    · refine ⟨?_, ?_⟩
      · rintro c rfl
        rfl
      · rintro rfl
        refine ⟨?_, ?_⟩
        · rintro c rfl
          rfl
        · rintro rfl
          refine ⟨?_, ?_⟩
          · rintro c rfl
            rfl
          · rintro rfl
            refine ⟨fun c hc => ?_, fun hn => ?_⟩
            · have h3 : tb = some c := hc
              subst h3
              rfl
            · have h3 : tb = none := hn
              subst h3
              rfl

/-- C5: the temporary credential triple is passed unmodified: whenever
`get_aws_credentials` extracts a dictionary from a response carrying
`aws_temp_credentials`, the keyword arguments handed to `boto3.Session`
equal, field for field, the `access_key_id`, `secret_access_key` and
`session_token` of that response object. -/
theorem C5_credentials_unmodified (c : AwsTempCreds) (d : AwsCredentialsDict)
    (h : (get_aws_credentials (.ok ⟨.val c⟩)).1 = some d) :
    (boto3SessionArgs d).aws_access_key_id = c.access_key_id
    ∧ (boto3SessionArgs d).aws_secret_access_key = c.secret_access_key
    ∧ (boto3SessionArgs d).aws_session_token = c.session_token := by
  have hd : d = ⟨c.access_key_id, c.secret_access_key, c.session_token⟩ :=
    (Option.some_injective _ h).symm
  subst hd
  exact ⟨rfl, rfl, rfl⟩

/-- C5 witness: the theorem applied to a concrete credential triple. -/
theorem C5_credentials_unmodified_witness :
    (boto3SessionArgs ⟨"AKIA1", "supersecret", "token9"⟩).aws_access_key_id
        = "AKIA1"
    ∧ (boto3SessionArgs ⟨"AKIA1", "supersecret", "token9"⟩).aws_secret_access_key
        = "supersecret"
    ∧ (boto3SessionArgs ⟨"AKIA1", "supersecret", "token9"⟩).aws_session_token
        = "token9" :=
  C5_credentials_unmodified ⟨"AKIA1", "supersecret", "token9"⟩
    ⟨"AKIA1", "supersecret", "token9"⟩ rfl

/-- C7: the viewer opens and reads `big.json` only when the existence check
reports it present — in which case it reads the 10240-character sample of
the actual contents — and when the check reports it absent it shows the
not-found error and performs no read; the check's outcome agrees with the
file's presence. -/
theorem C7_check_before_read (fs : LocalFilesystem) :
    (∀ c, fs.bigJson = some c →
        viewer_file_branch fs = .readsFile (c.take 10240))
    ∧ (fs.bigJson = none → viewer_file_branch fs = .notFound)
    ∧ path_exists_bigJson fs = fs.bigJson.isSome := by
  obtain ⟨o⟩ := fs
  refine ⟨?_, ?_, rfl⟩
  · rintro c rfl
    rfl
  · rintro rfl
    rfl

/-- C8: when an instance's tag list has a first `"Name"`-keyed tag (in
particular when it contains more than one such tag), the record's `Name` is
that first tag's `Value`, and the tags after the first match never influence
the result: replacing the whole suffix leaves the extracted name unchanged. -/
theorem C8_first_name_tag_wins (l₁ l₂ l₂' : List Ec2Tag) (t : Ec2Tag)
    (ht : t.key = "Name") (hl₁ : ∀ u ∈ l₁, u.key ≠ "Name") (i : Ec2Instance)
    (hi : i.tags = some (l₁ ++ t :: l₂)) :
    findNameTag (l₁ ++ t :: l₂) = t.value
    ∧ findNameTag (l₁ ++ t :: l₂) = findNameTag (l₁ ++ t :: l₂')
    ∧ get_ec2_instances_records [⟨[i]⟩] = [⟨t.value, i.instanceId⟩] := by
  have key : ∀ l : List Ec2Tag, findNameTag (l₁ ++ t :: l) = t.value := by
    intro l
    rw [findNameTag_append_no_name l₁ (t :: l) hl₁]
    simp only [findNameTag, if_pos ht]
  refine ⟨key l₂, (key l₂).trans (key l₂').symm, ?_⟩
  simp [get_ec2_instances_records, getTags, hi, key l₂]

/-- C8 witness: a tag list with two `"Name"` tags; the record takes the
first tag's value `"web"`, and dropping the second `"Name"` tag does not
change the extracted name. -/
theorem C8_first_name_tag_wins_witness :
    findNameTag ([⟨"env", "prod"⟩] ++ (⟨"Name", "web"⟩ : Ec2Tag)
        :: [⟨"Name", "db"⟩]) = "web"
    ∧ findNameTag ([⟨"env", "prod"⟩] ++ (⟨"Name", "web"⟩ : Ec2Tag)
        :: [⟨"Name", "db"⟩])
      = findNameTag ([⟨"env", "prod"⟩] ++ (⟨"Name", "web"⟩ : Ec2Tag) :: [])
    ∧ get_ec2_instances_records
        [⟨[⟨"i-0abc", some ([⟨"env", "prod"⟩] ++ (⟨"Name", "web"⟩ : Ec2Tag)
            :: [⟨"Name", "db"⟩])⟩]⟩]
      = [⟨"web", "i-0abc"⟩] :=
  C8_first_name_tag_wins [⟨"env", "prod"⟩] [⟨"Name", "db"⟩] []
    ⟨"Name", "web"⟩ rfl (by decide)
    ⟨"i-0abc", some ([⟨"env", "prod"⟩] ++ (⟨"Name", "web"⟩ : Ec2Tag)
        :: [⟨"Name", "db"⟩])⟩ rfl

/-- C10: the preview depends only on the first 10240 characters of the
file: for any parse function and any two file contents agreeing on their
first 10240 characters, the displayed sample, its parse result, and the raw
fallback display (truncated to 1000 characters plus an ellipsis when
longer) coincide, whatever the total sizes. -/
theorem C10_preview_prefix_only {α : Type} (parseJson : List Char → Option α)
    (c₁ c₂ : List Char) (h : c₁.take 10240 = c₂.take 10240) :
    render_preview parseJson c₁ = render_preview parseJson c₂ := by
  simp only [render_preview, h]

/-- C10 witness: two all-`'a'` files of different lengths (10241 and 10242
characters) agree on their first 10240 characters, so their previews are
equal. -/
theorem C10_preview_prefix_only_witness :
    render_preview (fun _ => (none : Option Nat)) (List.replicate 10241 'a')
      = render_preview (fun _ => (none : Option Nat))
          (List.replicate 10242 'a') :=
  C10_preview_prefix_only (fun _ => (none : Option Nat))
    (List.replicate 10241 'a') (List.replicate 10242 'a')
    (by rw [List.take_replicate, List.take_replicate]; norm_num)
